import Mathlib

/-!
Verification development for a screen-recorder program (`recorder.py`).

The program grabs a user-selected display region each cycle, overlays a
timestamp and a REC indicator, writes the frame to a `cv2.VideoWriter`
held by a context manager, shows a downscaled preview, and stops on a
key press, ESC, window close, or process interrupt.

We shallowly embed the pieces the specification talks about:
  * `format_timestamp` — the `strftime('%Y-%m-%d %H:%M:%S.%f')[:-3]` lambda,
    modelled at digit level over an explicit instant;
  * `select_region` — the ROI handling after `cv2.selectROI`;
  * `fps_calc` — `frames / max(elapsed, 0.001)`;
  * `vwc_exit` — `VideoWriterContext.__exit__`;
  * `runLoop` / `mainRun` — the capture loop and `main`'s
    try/except/finally structure, driven by an environment recording the
    outcomes of the external calls (ROI result, writer-open check, and
    per-cycle key/window/interrupt/exception events).
-/

namespace Recorder

/-- An instant, as `datetime.datetime` exposes it: calendar fields plus
microseconds (`0 ≤ micro < 10^6` for real datetimes). -/
structure DateTime where
  year : Nat
  month : Nat
  day : Nat
  hour : Nat
  minute : Nat
  second : Nat
  micro : Nat
deriving DecidableEq, Repr

/-- The decimal digit character for `d % 10`. -/
def digitChar (d : Nat) : Char := Char.ofNat (48 + d % 10)

/-- A two-digit zero-padded field (`%m`, `%d`, `%H`, `%M`, `%S`). -/
def twoDigits (n : Nat) : List Char :=
  [digitChar (n / 10), digitChar n]

/-- A four-digit zero-padded field (`%Y`; Python datetimes satisfy
`year ≤ 9999`). -/
def fourDigits (n : Nat) : List Char :=
  [digitChar (n / 1000), digitChar (n / 100), digitChar (n / 10), digitChar n]

/-- A three-digit zero-padded field (milliseconds). -/
def threeDigits (n : Nat) : List Char :=
  [digitChar (n / 100), digitChar (n / 10), digitChar n]

/-- The six-digit zero-padded `%f` microsecond field. -/
def sixDigits (n : Nat) : List Char :=
  [digitChar (n / 100000), digitChar (n / 10000), digitChar (n / 1000),
   digitChar (n / 100), digitChar (n / 10), digitChar n]

/-- `strftime('%Y-%m-%d %H:%M:%S.%f')` for an explicit instant. -/
def strftime_chars (dt : DateTime) : List Char :=
  fourDigits dt.year ++ '-' :: twoDigits dt.month ++ '-' :: twoDigits dt.day ++
    ' ' :: twoDigits dt.hour ++ ':' :: twoDigits dt.minute ++
    ':' :: twoDigits dt.second ++ '.' :: sixDigits dt.micro

/-- Everything up to and including the decimal point,
`YYYY-MM-DD HH:MM:SS.` — the part `[:-3]` never touches. -/
def head_chars (dt : DateTime) : List Char :=
  fourDigits dt.year ++ '-' :: twoDigits dt.month ++ '-' :: twoDigits dt.day ++
    ' ' :: twoDigits dt.hour ++ ':' :: twoDigits dt.minute ++
    ':' :: twoDigits dt.second ++ ['.']

/-- `format_timestamp = lambda: datetime.now().strftime('%Y-%m-%d %H:%M:%S.%f')[:-3]`,
with the clock read made an explicit argument. `s[:-3]` keeps the first
`len(s) - 3` characters. -/
def format_timestamp (dt : DateTime) : String :=
  let s := strftime_chars dt
  String.mk (s.take (s.length - 3))

/-- `datetime.now().strftime('%Y%m%d_%H%M%S')` and the f-string of lines
79–80: the output filename. -/
def filename_of (dt : DateTime) : String :=
  "screen_rec_" ++
    String.mk (fourDigits dt.year ++ twoDigits dt.month ++ twoDigits dt.day ++
      '_' :: (twoDigits dt.hour ++ twoDigits dt.minute ++ twoDigits dt.second)) ++
    ".mp4"

/-- The tuple `cv2.selectROI` returns: `(x, y, w, h)`. -/
structure Roi where
  x : Int
  y : Int
  w : Int
  h : Int
deriving DecidableEq, Repr

/-- The region tuple `select_region` returns: `(x1, y1, x2, y2)`. -/
structure Region where
  x1 : Int
  y1 : Int
  x2 : Int
  y2 : Int
deriving DecidableEq, Repr

/-- `select_region` (lines 40–57): `sel` is the outcome of the interactive
`cv2.selectROI` call (`.error` when it raises, in which case the source
calls `sys.exit`). `scrW`, `scrH` are `scr.shape[1]`, `scr.shape[0]`.
Only the exact tuple `(0, 0, 0, 0)` triggers the full-screen fallback. -/
def select_region (scrW scrH : Int) (sel : Except String Roi) :
    Except String Region :=
  match sel with
  | .error e => .error ("Region selection failed: " ++ e)
  | .ok roi =>
      if roi = ⟨0, 0, 0, 0⟩ then
        .ok ⟨0, 0, scrW, scrH⟩
      else
        .ok ⟨roi.x, roi.y, roi.x + roi.w, roi.y + roi.h⟩

/-- Line 109: `fps = frame_count / max(elapsed, 0.001)` (also the average
FPS of line 133), over exact rationals. -/
def fps_calc (frame_count : Nat) (elapsed : ℚ) : ℚ :=
  (frame_count : ℚ) / max elapsed (1 / 1000)

/-- Line 125: `key == ord('q') or key == 27 or getWindowProperty(...) < 1`.
`key` is `cv2.waitKey(1) & 0xFF` applied to the raw return (`-1 & 0xFF`
is `255` in Python, matching `Int.emod`). -/
def stop_requested (rawKey : Int) (winVisible : Int) : Bool :=
  let key := rawKey % 256
  decide (key = 113) || decide (key = 27) || decide (winVisible < 1)

/-- What the external world does during one iteration of the `while` loop:
either the cycle's OS calls all succeed and the key poll / window check
yield the given values, or a `KeyboardInterrupt` arrives, or one of the
calls raises some other exception. -/
inductive CycleEvent where
  | normal (rawKey : Int) (winVisible : Int)
  | interrupt
  | error (msg : String)
deriving DecidableEq, Repr

/-- How the `while` loop ended. -/
inductive LoopEnd where
  | stopped
  | interrupted
  | errored
deriving DecidableEq, Repr

/-- The `while True` loop of lines 89–126. Each normal cycle captures,
overlays, calls `out.write(frame)` (incrementing the write count), then
runs `frame_count += 1`, and only afterwards polls the stop signal.
An interrupt or exception during a cycle's OS calls ends the loop before
that cycle's write. Returns `(frame_count, writes, end)` at loop exit, or
`none` when the event list runs out with the loop still spinning. -/
def runLoop : List CycleEvent → Nat → Nat → Option (Nat × Nat × LoopEnd)
  | [], _, _ => none
  | CycleEvent.normal rawKey winVisible :: rest, frame_count, writes =>
      let writes' := writes + 1
      let frame_count' := frame_count + 1
      if stop_requested rawKey winVisible then
        some (frame_count', writes', LoopEnd.stopped)
      else
        runLoop rest frame_count' writes'
  | CycleEvent.interrupt :: _, frame_count, writes =>
      some (frame_count, writes, LoopEnd.interrupted)
  | CycleEvent.error _ :: _, frame_count, writes =>
      some (frame_count, writes, LoopEnd.errored)

/-- The mutable state of a `VideoWriterContext`: whether `self.writer`
is set (truthy), and how often `.release()` has run. -/
structure VWState where
  writer : Bool
  releases : Nat
deriving DecidableEq, Repr

/-- What `__exit__` produced: the updated state, whether it printed the
"Exception during recording" line, and its return value's truthiness
(Python suppresses the exception iff `__exit__` returns truthy). -/
structure ExitEffect where
  state : VWState
  printedExc : Bool
  suppress : Bool
deriving DecidableEq, Repr

/-- `VideoWriterContext.__exit__` (lines 32–36): release the writer if
set, print the exception if one is pending, and fall off the end —
returning `None`, which is falsy. -/
def vwc_exit (s : VWState) (excPending : Bool) : ExitEffect :=
  { state := { s with releases := if s.writer then s.releases + 1 else s.releases }
    printedExc := excPending
    suppress := false }

/-- Outcomes of the external calls one run of `main` performs: screen
size, the `selectROI` outcome, the `writer.isOpened()` check, the clock
at start, the loop's per-cycle events, and the final elapsed duration. -/
structure Env where
  scrW : Int
  scrH : Int
  selection : Except String Roi
  openOk : Bool
  startTime : DateTime
  events : List CycleEvent
  durationQ : ℚ

/-- Observable outcome of one terminating run of `main`: process exit
code (`sys.exit(msg)` exits 1; falling off `main` exits 0), how often
the writer was released, the resolution bound to the encoder by
`VideoWriterContext.__init__`, frames written, the summary's frame count
and average FPS when the summary printed (`none` when it did not), the
"Recording aborted by user" flag, the fatal diagnostic if any, and
whether the `finally` ran `cv2.destroyAllWindows()`. -/
structure MainResult where
  exitCode : Nat
  releases : Nat
  encRes : Option (Int × Int)
  writes : Nat
  summaryFrames : Option Nat
  summaryAvg : Option ℚ
  abortedMsg : Bool
  diag : Option String
  windowsDestroyed : Bool
deriving DecidableEq, Repr

/-- `main` (lines 72–140). `select_region` failure and `__enter__`
failure call `sys.exit` (a `SystemExit`, uncaught by `except Exception`);
after a successfully opened writer, the `with` statement runs `__exit__`
exactly once on every way out of its body, then a `KeyboardInterrupt`
reaches the first handler (prints, falls through, exit 0), another
exception reaches the second (`sys.exit("Critical error: ...")`, exit 1),
and a normal break reaches the summary print. The `finally` always runs.
`none` means the loop never terminated (no claim speaks about that). -/
def mainRun (env : Env) : Option MainResult :=
  match select_region env.scrW env.scrH env.selection with
  | .error msg =>
      some { exitCode := 1, releases := 0, encRes := none, writes := 0,
             summaryFrames := none, summaryAvg := none, abortedMsg := false,
             diag := some msg, windowsDestroyed := true }
  | .ok reg =>
      let w := reg.x2 - reg.x1
      let h := reg.y2 - reg.y1
      if env.openOk then
        match runLoop env.events 0 0 with
        | none => none
        | some (frame_count, writes, fin) =>
            let eff := vwc_exit ⟨true, 0⟩ (fin ≠ LoopEnd.stopped)
            match fin with
            | LoopEnd.stopped =>
                some { exitCode := 0, releases := eff.state.releases,
                       encRes := some (w, h), writes := writes,
                       summaryFrames := some frame_count,
                       summaryAvg := some (fps_calc frame_count env.durationQ),
                       abortedMsg := false, diag := none,
                       windowsDestroyed := true }
            | LoopEnd.interrupted =>
                some { exitCode := 0, releases := eff.state.releases,
                       encRes := some (w, h), writes := writes,
                       summaryFrames := none, summaryAvg := none,
                       abortedMsg := true, diag := none,
                       windowsDestroyed := true }
            | LoopEnd.errored =>
                some { exitCode := 1, releases := eff.state.releases,
                       encRes := some (w, h), writes := writes,
                       summaryFrames := none, summaryAvg := none,
                       abortedMsg := false,
                       diag := some "Critical error",
                       windowsDestroyed := true }
      else
        some { exitCode := 1, releases := 0, encRes := some (w, h),
               writes := 0, summaryFrames := none, summaryAvg := none,
               abortedMsg := false,
               diag := some ("VideoWriter Error: Failed to initialize video writer for "
                 ++ filename_of env.startTime),
               windowsDestroyed := true }

/-- Whether `select_region` succeeded for this environment. -/
def selOk (env : Env) : Bool :=
  match select_region env.scrW env.scrH env.selection with
  | .ok _ => true
  | .error _ => false

/-- Test fixture: a session whose sole cycle sees the key `q` (113), so
the loop stops gracefully after one frame. -/
def envStop : Env :=
  ⟨1920, 1080, Except.ok ⟨0, 0, 0, 0⟩, true, ⟨2024, 3, 1, 10, 15, 30, 0⟩,
    [CycleEvent.normal 113 1], 5 / 2⟩

/-- The outcome `mainRun` produces for `envStop`. -/
def resStop : MainResult :=
  ⟨0, 1, some (1920, 1080), 1, some 1, some (fps_calc 1 (5 / 2)), false, none, true⟩

/-- Test fixture: one uneventful cycle (no key, window visible), then a
`KeyboardInterrupt`. -/
def envInterrupt : Env :=
  ⟨1920, 1080, Except.ok ⟨0, 0, 0, 0⟩, true, ⟨2024, 3, 1, 10, 15, 30, 0⟩,
    [CycleEvent.normal (-1) 1, CycleEvent.interrupt], 5 / 2⟩

/-- The outcome `mainRun` produces for `envInterrupt`. -/
def resInterrupt : MainResult :=
  ⟨0, 1, some (1920, 1080), 1, none, none, true, none, true⟩

/-- Test fixture: one uneventful cycle, then a mid-loop exception. -/
def envError : Env :=
  ⟨1920, 1080, Except.ok ⟨0, 0, 0, 0⟩, true, ⟨2024, 3, 1, 10, 15, 30, 0⟩,
    [CycleEvent.normal (-1) 1, CycleEvent.error "grab failed"], 5 / 2⟩

/-- The outcome `mainRun` produces for `envError`. -/
def resError : MainResult :=
  ⟨1, 1, some (1920, 1080), 1, none, none, false, some "Critical error", true⟩

/-! ### Loop invariants -/

/-- Started from synchronized counters, the loop keeps `frame_count`
equal to the write count at every exit: the increment of line 105 runs
exactly once per `out.write` and nowhere else. -/
theorem runLoop_sync (evs : List CycleEvent) :
    ∀ n fc wr fin, runLoop evs n n = some (fc, wr, fin) → fc = wr := by
  induction evs with
  | nil => intro n fc wr fin h; simp [runLoop] at h
  | cons e rest ih =>
    intro n fc wr fin h
    cases e with
    | normal k v =>
      simp only [runLoop] at h
      by_cases hs : stop_requested k v
      · rw [if_pos hs] at h
        injection h with h1
        injection h1 with ha hb
        injection hb with hb1 hb2
        omega
      · rw [if_neg hs] at h
        exact ih (n + 1) fc wr fin h
    | interrupt =>
      simp only [runLoop] at h
      injection h with h1
      injection h1 with ha hb
      injection hb with hb1 hb2
      omega
    | error m =>
      simp only [runLoop] at h
      injection h with h1
      injection h1 with ha hb
      injection hb with hb1 hb2
      omega

/-- The stop signal is only polled after the cycle's write and
increment, so a graceful stop strictly grew both counters. -/
theorem runLoop_stopped_lt (evs : List CycleEvent) :
    ∀ fc0 wr0 fc wr, runLoop evs fc0 wr0 = some (fc, wr, LoopEnd.stopped) →
      fc0 < fc ∧ wr0 < wr := by
  induction evs with
  | nil => intro fc0 wr0 fc wr h; simp [runLoop] at h
  | cons e rest ih =>
    intro fc0 wr0 fc wr h
    cases e with
    | normal k v =>
      simp only [runLoop] at h
      by_cases hs : stop_requested k v
      · rw [if_pos hs] at h
        injection h with h1
        injection h1 with ha hb
        injection hb with hb1 hb2
        omega
      · rw [if_neg hs] at h
        have := ih (fc0 + 1) (wr0 + 1) fc wr h
        omega
    | interrupt => simp [runLoop] at h
    | error m => simp [runLoop] at h

/-! ### Shapes of the terminating runs of `main` -/

/-- A `selectROI` failure: `sys.exit` from `select_region`, nothing
acquired, `finally` still runs. -/
theorem mainRun_selError (env : Env) (msg : String)
    (h : select_region env.scrW env.scrH env.selection = .error msg) :
    mainRun env = some ⟨1, 0, none, 0, none, none, false, some msg, true⟩ := by
  simp [mainRun, h]

/-- A failed `isOpened` check: `sys.exit` from `__enter__`; the body and
`__exit__` never run. -/
theorem mainRun_openFail (env : Env) (reg : Region)
    (h : select_region env.scrW env.scrH env.selection = .ok reg)
    (ho : env.openOk = false) :
    mainRun env = some ⟨1, 0, some (reg.x2 - reg.x1, reg.y2 - reg.y1), 0, none, none, false,
      some ("VideoWriter Error: Failed to initialize video writer for "
        ++ filename_of env.startTime), true⟩ := by
  simp [mainRun, h, ho]

/-- A graceful stop: `__exit__` releases, the summary prints, `main`
returns, the process exits 0. -/
theorem mainRun_stopped (env : Env) (reg : Region) (fc wr : Nat)
    (h : select_region env.scrW env.scrH env.selection = .ok reg)
    (ho : env.openOk = true)
    (hl : runLoop env.events 0 0 = some (fc, wr, LoopEnd.stopped)) :
    mainRun env = some ⟨0, 1, some (reg.x2 - reg.x1, reg.y2 - reg.y1), wr,
      some fc, some (fps_calc fc env.durationQ), false, none, true⟩ := by
  simp [mainRun, h, ho, hl, vwc_exit]

/-- A `KeyboardInterrupt`: `__exit__` releases, the first handler prints
the aborted message, the summary is skipped, exit 0. -/
theorem mainRun_interrupted (env : Env) (reg : Region) (fc wr : Nat)
    (h : select_region env.scrW env.scrH env.selection = .ok reg)
    (ho : env.openOk = true)
    (hl : runLoop env.events 0 0 = some (fc, wr, LoopEnd.interrupted)) :
    mainRun env = some ⟨0, 1, some (reg.x2 - reg.x1, reg.y2 - reg.y1), wr,
      none, none, true, none, true⟩ := by
  simp [mainRun, h, ho, hl, vwc_exit]

/-- Any other mid-loop exception: `__exit__` releases, the second
handler calls `sys.exit("Critical error: ...")`, exit 1. -/
theorem mainRun_errored (env : Env) (reg : Region) (fc wr : Nat)
    (h : select_region env.scrW env.scrH env.selection = .ok reg)
    (ho : env.openOk = true)
    (hl : runLoop env.events 0 0 = some (fc, wr, LoopEnd.errored)) :
    mainRun env = some ⟨1, 1, some (reg.x2 - reg.x1, reg.y2 - reg.y1), wr,
      none, none, false, some "Critical error", true⟩ := by
  simp [mainRun, h, ho, hl, vwc_exit]

theorem selOk_iff (env : Env) :
    selOk env = true ↔ ∃ reg, select_region env.scrW env.scrH env.selection = .ok reg := by
  unfold selOk
  cases h : select_region env.scrW env.scrH env.selection <;> simp

/-! ### Timestamp formatting lemmas -/

theorem strftime_split (dt : DateTime) :
    strftime_chars dt = head_chars dt ++ sixDigits dt.micro := by
  simp [strftime_chars, head_chars, List.append_assoc]

theorem head_chars_length (dt : DateTime) : (head_chars dt).length = 20 := by
  simp [head_chars, fourDigits, twoDigits]

/-- Keeping the first three of the six `%f` digits is exactly the
zero-padded decimal of `micro / 1000`: truncation to milliseconds. -/
theorem take3_sixDigits (n : Nat) :
    (sixDigits n).take 3 = threeDigits (n / 1000) := by
  simp [sixDigits, threeDigits, List.take, Nat.div_div_eq_div_mul]

/-- `strftime(...)[:-3]` drops precisely the last three microsecond
digits, leaving the date-time head, the point, and three millisecond
digits obtained by integer division. -/
theorem fmt_general (dt : DateTime) :
    format_timestamp dt = String.mk (head_chars dt ++ threeDigits (dt.micro / 1000)) := by
  simp only [format_timestamp, strftime_split]
  rw [List.length_append, head_chars_length]
  have h6 : (sixDigits dt.micro).length = 6 := by simp [sixDigits]
  rw [h6]
  norm_num
  rw [List.take_append_eq_append_take,
    List.take_of_length_le (by rw [head_chars_length]; norm_num), head_chars_length]
  norm_num [take3_sixDigits]

/-! ### The claims -/

/-- Claim C1: in every terminating session whose encoder opened
successfully, the `VideoWriter` is released exactly once, whether the
session ends by the stop signal, by `KeyboardInterrupt`, or by any other
mid-loop exception. -/
theorem encoder_released_exactly_once (env : Env) (r : MainResult)
    (hsel : selOk env = true) (hopen : env.openOk = true)
    (hrun : mainRun env = some r) : r.releases = 1 := by
  obtain ⟨reg, hreg⟩ := (selOk_iff env).mp hsel
  cases hloop : runLoop env.events 0 0 with
  | none => simp [mainRun, hreg, hopen, hloop] at hrun
  | some t =>
    obtain ⟨fc, wr, fin⟩ := t
    cases fin with
    | stopped =>
        rw [mainRun_stopped env reg fc wr hreg hopen hloop] at hrun
        injection hrun with h
        subst h
        rfl
    | interrupted =>
        rw [mainRun_interrupted env reg fc wr hreg hopen hloop] at hrun
        injection hrun with h
        subst h
        rfl
    | errored =>
        rw [mainRun_errored env reg fc wr hreg hopen hloop] at hrun
        injection hrun with h
        subst h
        rfl

theorem encoder_released_exactly_once_witness :
    selOk envStop = true ∧ envStop.openOk = true ∧
    mainRun envStop = some resStop ∧ resStop.releases = 1 :=
  ⟨by decide, rfl, rfl,
    encoder_released_exactly_once envStop resStop (by decide) rfl rfl⟩

/-- Claim C2, counterexample: the claim that the summary is reported at
the end of every session including the interrupt path is false — on the
session `envInterrupt` the loop is interrupted and `mainRun` reports no
summary (the print of lines 129–133 sits after the `with` block inside
the `try`, so the propagating `KeyboardInterrupt` skips it). -/
theorem summary_skipped_on_interrupt :
    ¬ (∀ (env : Env) (r : MainResult), selOk env = true → env.openOk = true →
        mainRun env = some r → r.summaryFrames.isSome = true) := by
  intro h
  have hc := h envInterrupt resInterrupt (by decide) rfl rfl
  simp [resInterrupt] at hc

/-- Claim C2, amended: the final summary is computed and reported
exactly when the session ends via a normal stop; a session ending via
interrupt or a mid-loop error skips the summary and instead reports the
aborted-by-user message or the critical-error diagnostic. -/
theorem summary_iff_normal_stop (env : Env) (r : MainResult) (fc wr : Nat) (fin : LoopEnd)
    (hsel : selOk env = true) (hopen : env.openOk = true)
    (hloop : runLoop env.events 0 0 = some (fc, wr, fin))
    (hrun : mainRun env = some r) :
    (r.summaryFrames.isSome = true ↔ fin = LoopEnd.stopped) ∧
    (fin = LoopEnd.stopped → r.summaryFrames = some fc ∧
      r.summaryAvg = some (fps_calc fc env.durationQ)) ∧
    (fin = LoopEnd.interrupted → r.summaryFrames = none ∧ r.abortedMsg = true) ∧
    (fin = LoopEnd.errored → r.summaryFrames = none ∧ r.diag.isSome = true) := by
  obtain ⟨reg, hreg⟩ := (selOk_iff env).mp hsel
  cases fin with
  | stopped =>
      rw [mainRun_stopped env reg fc wr hreg hopen hloop] at hrun
      injection hrun with h
      subst h
      simp
  | interrupted =>
      rw [mainRun_interrupted env reg fc wr hreg hopen hloop] at hrun
      injection hrun with h
      subst h
      simp
  | errored =>
      rw [mainRun_errored env reg fc wr hreg hopen hloop] at hrun
      injection hrun with h
      subst h
      simp

theorem summary_iff_normal_stop_witness :
    selOk envStop = true ∧ envStop.openOk = true ∧
    runLoop envStop.events 0 0 = some (1, 1, LoopEnd.stopped) ∧
    mainRun envStop = some resStop ∧
    resStop.summaryFrames = some 1 ∧ resStop.summaryAvg = some (fps_calc 1 (5 / 2)) :=
  ⟨by decide, rfl, by decide, rfl,
    (summary_iff_normal_stop envStop resStop 1 1 LoopEnd.stopped (by decide) rfl
      (by decide) rfl).2.1 rfl⟩

/-- Claim C3, counterexample: it is not true that every zero-area
selection yields the full-display rectangle — the zero-area ROI
`(1, 0, 0, 0)` is not the sentinel `(0, 0, 0, 0)` that `select_region`
compares against, so it comes back as the zero-size region
`(1, 0, 1, 0)`, not as the full display. -/
theorem zero_area_roi_not_full_display :
    ¬ (∀ (scrW scrH : Int) (roi : Roi), roi.w * roi.h = 0 →
        select_region scrW scrH (Except.ok roi) = Except.ok ⟨0, 0, scrW, scrH⟩) := by
  intro h
  have hc := h 1920 1080 ⟨1, 0, 0, 0⟩ (by decide)
  rw [show select_region 1920 1080 (Except.ok ⟨1, 0, 0, 0⟩) =
        Except.ok ⟨1, 0, 1, 0⟩ from rfl] at hc
  injection hc with h2
  injection h2 with e1 e2 e3 e4
  exact absurd e1 (by decide)

/-- Claim C3, amended: a cancelled selection — `cv2.selectROI` returning
exactly `(0, 0, 0, 0)` — always yields the full-display rectangle, but
every zero-area rectangle other than that sentinel is returned unchanged
as the degenerate zero-size region `(x, y, x + w, y + h)`. -/
theorem cancel_full_display_degenerate_kept :
    (∀ scrW scrH : Int,
        select_region scrW scrH (Except.ok ⟨0, 0, 0, 0⟩) = Except.ok ⟨0, 0, scrW, scrH⟩) ∧
    (∀ (scrW scrH : Int) (roi : Roi), roi.w * roi.h = 0 → roi ≠ ⟨0, 0, 0, 0⟩ →
        select_region scrW scrH (Except.ok roi) =
          Except.ok ⟨roi.x, roi.y, roi.x + roi.w, roi.y + roi.h⟩) := by
  constructor
  · intro scrW scrH
    simp [select_region]
  · intro scrW scrH roi _hzero hne
    simp [select_region, hne]

theorem cancel_full_display_degenerate_kept_witness :
    (⟨1, 0, 0, 0⟩ : Roi).w * (⟨1, 0, 0, 0⟩ : Roi).h = 0 ∧
    (⟨1, 0, 0, 0⟩ : Roi) ≠ ⟨0, 0, 0, 0⟩ ∧
    select_region 1920 1080 (Except.ok ⟨1, 0, 0, 0⟩) = Except.ok ⟨1, 0, 1, 0⟩ :=
  ⟨by decide, by decide,
    cancel_full_display_degenerate_kept.2 1920 1080 ⟨1, 0, 0, 0⟩ (by decide) (by decide)⟩

/-- Claim C4: the FPS divisor `max(elapsed, 0.001)` is never zero — for
any frame count and any elapsed time — and the computed FPS is bounded
above by `frame_count / 0.001`. -/
theorem fps_divisor_floored (frame_count : Nat) (elapsed : ℚ) :
    max elapsed (1 / 1000 : ℚ) ≠ 0 ∧
    fps_calc frame_count elapsed ≤ (frame_count : ℚ) / (1 / 1000) := by
  have hpos : (0 : ℚ) < max elapsed (1 / 1000) :=
    lt_of_lt_of_le (by norm_num) (le_max_right _ _)
  refine ⟨ne_of_gt hpos, ?_⟩
  unfold fps_calc
  gcongr
  all_goals first
    | positivity
    | exact le_max_right _ _

/-- Claim C5: for every instant, the timestamp renders as the
`YYYY-MM-DD HH:MM:SS.` head followed by exactly three fractional digits,
obtained by truncating the microseconds (`micro / 1000`, floor, not
rounding); in particular 2024-03-01 10:15:30.123456 renders as
"2024-03-01 10:15:30.123". -/
theorem timestamp_millisecond_truncation :
    (∀ dt : DateTime,
        format_timestamp dt = String.mk (head_chars dt ++ threeDigits (dt.micro / 1000)) ∧
        (threeDigits (dt.micro / 1000)).length = 3) ∧
    format_timestamp ⟨2024, 3, 1, 10, 15, 30, 123456⟩ = "2024-03-01 10:15:30.123" :=
  ⟨fun dt => ⟨fmt_general dt, by simp [threeDigits]⟩, by decide⟩

/-- Claim C6: whenever selection produced a valid region
(`x2 > x1`, `y2 > y1`), every terminating run binds the encoder to the
resolution `(x2 - x1, y2 - y1)` exactly. -/
theorem encoder_resolution_exact (env : Env) (x1 y1 x2 y2 : Int) (r : MainResult)
    (hsel : select_region env.scrW env.scrH env.selection = Except.ok ⟨x1, y1, x2, y2⟩)
    (_hx : x1 < x2) (_hy : y1 < y2)
    (hrun : mainRun env = some r) :
    r.encRes = some (x2 - x1, y2 - y1) := by
  by_cases hopen : env.openOk
  · cases hloop : runLoop env.events 0 0 with
    | none => simp [mainRun, hsel, hopen, hloop] at hrun
    | some t =>
      obtain ⟨fc, wr, fin⟩ := t
      cases fin with
      | stopped =>
          rw [mainRun_stopped env ⟨x1, y1, x2, y2⟩ fc wr hsel hopen hloop] at hrun
          injection hrun with h
          subst h
          rfl
      | interrupted =>
          rw [mainRun_interrupted env ⟨x1, y1, x2, y2⟩ fc wr hsel hopen hloop] at hrun
          injection hrun with h
          subst h
          rfl
      | errored =>
          rw [mainRun_errored env ⟨x1, y1, x2, y2⟩ fc wr hsel hopen hloop] at hrun
          injection hrun with h
          subst h
          rfl
  · rw [mainRun_openFail env ⟨x1, y1, x2, y2⟩ hsel (by simpa using hopen)] at hrun
    injection hrun with h
    subst h
    rfl

theorem encoder_resolution_exact_witness :
    select_region envStop.scrW envStop.scrH envStop.selection =
      Except.ok ⟨0, 0, 1920, 1080⟩ ∧ (0 : Int) < 1920 ∧ (0 : Int) < 1080 ∧
    mainRun envStop = some resStop ∧ resStop.encRes = some (1920, 1080) :=
  ⟨rfl, by decide, by decide, rfl,
    encoder_resolution_exact envStop 0 0 1920 1080 resStop rfl (by decide) (by decide) rfl⟩

/-- Claim C7: a `KeyboardInterrupt` during the loop yields the
aborted-by-user message and exit status 0, while every fatal path —
region-selection failure, encoder-open failure, or another mid-loop
exception — exits with a non-zero status and a diagnostic. -/
theorem interrupt_clean_exit_fatal_nonzero (env : Env) (r : MainResult)
    (hrun : mainRun env = some r) :
    (∀ fc wr, selOk env = true → env.openOk = true →
        runLoop env.events 0 0 = some (fc, wr, LoopEnd.interrupted) →
        r.abortedMsg = true ∧ r.exitCode = 0) ∧
    (∀ msg, env.selection = Except.error msg → r.exitCode = 1 ∧ r.diag.isSome = true) ∧
    (selOk env = true → env.openOk = false → r.exitCode = 1 ∧ r.diag.isSome = true) ∧
    (∀ fc wr, selOk env = true → env.openOk = true →
        runLoop env.events 0 0 = some (fc, wr, LoopEnd.errored) →
        r.exitCode = 1 ∧ r.diag.isSome = true) := by
  refine ⟨?_, ?_, ?_, ?_⟩
  · intro fc wr hsel hopen hloop
    obtain ⟨reg, hreg⟩ := (selOk_iff env).mp hsel
    rw [mainRun_interrupted env reg fc wr hreg hopen hloop] at hrun
    injection hrun with h
    subst h
    exact ⟨rfl, rfl⟩
  · intro msg hmsg
    have hse : select_region env.scrW env.scrH env.selection =
        Except.error ("Region selection failed: " ++ msg) := by
      simp [select_region, hmsg]
    rw [mainRun_selError env ("Region selection failed: " ++ msg) hse] at hrun
    injection hrun with h
    subst h
    exact ⟨rfl, rfl⟩
  · intro hsel hopen
    obtain ⟨reg, hreg⟩ := (selOk_iff env).mp hsel
    rw [mainRun_openFail env reg hreg hopen] at hrun
    injection hrun with h
    subst h
    exact ⟨rfl, rfl⟩
  · intro fc wr hsel hopen hloop
    obtain ⟨reg, hreg⟩ := (selOk_iff env).mp hsel
    rw [mainRun_errored env reg fc wr hreg hopen hloop] at hrun
    injection hrun with h
    subst h
    exact ⟨rfl, rfl⟩

theorem interrupt_clean_exit_fatal_nonzero_witness :
    mainRun envInterrupt = some resInterrupt ∧
    selOk envInterrupt = true ∧ envInterrupt.openOk = true ∧
    runLoop envInterrupt.events 0 0 = some (1, 1, LoopEnd.interrupted) ∧
    resInterrupt.abortedMsg = true ∧ resInterrupt.exitCode = 0 :=
  ⟨rfl, by decide, rfl, by decide,
    (interrupt_clean_exit_fatal_nonzero envInterrupt resInterrupt rfl).1 1 1
      (by decide) rfl (by decide)⟩

/-- Claim C8: the stop-signal check sits after the cycle's capture,
overlay, write, and count, so a loop run that ends in a graceful stop
has counted — and written — at least one frame. -/
theorem graceful_stop_wrote_frame (evs : List CycleEvent) (fc wr : Nat)
    (h : runLoop evs 0 0 = some (fc, wr, LoopEnd.stopped)) :
    1 ≤ fc ∧ 1 ≤ wr ∧ fc = wr := by
  have h1 := runLoop_stopped_lt evs 0 0 fc wr h
  have h2 := runLoop_sync evs 0 fc wr LoopEnd.stopped h
  omega

theorem graceful_stop_wrote_frame_witness :
    runLoop [CycleEvent.normal 113 1] 0 0 = some (1, 1, LoopEnd.stopped) ∧
    1 ≤ 1 ∧ 1 ≤ 1 ∧ 1 = 1 :=
  ⟨by decide, graceful_stop_wrote_frame [CycleEvent.normal 113 1] 1 1 (by decide)⟩

/-- Claim C9: `frame_count` tracks the number of frames written at every
reachable point of the loop (both counters advance together, once per
write), and the frame count the summary reports equals the number of
frames appended to the output. -/
theorem frame_count_matches_writes :
    (∀ (evs : List CycleEvent) (n fc wr : Nat) (fin : LoopEnd),
        runLoop evs n n = some (fc, wr, fin) → fc = wr) ∧
    (∀ (env : Env) (r : MainResult) (fc : Nat),
        mainRun env = some r → r.summaryFrames = some fc → fc = r.writes) := by
  refine ⟨fun evs n fc wr fin h => runLoop_sync evs n fc wr fin h, ?_⟩
  intro env r fc hrun hsum
  cases hse : select_region env.scrW env.scrH env.selection with
  | error msg =>
      rw [mainRun_selError env msg hse] at hrun
      injection hrun with h
      subst h
      simp at hsum
  | ok reg =>
      by_cases hopen : env.openOk
      · cases hloop : runLoop env.events 0 0 with
        | none => simp [mainRun, hse, hopen, hloop] at hrun
        | some t =>
          obtain ⟨fc2, wr2, fin⟩ := t
          cases fin with
          | stopped =>
              rw [mainRun_stopped env reg fc2 wr2 hse hopen hloop] at hrun
              injection hrun with h
              subst h
              have hsync := runLoop_sync env.events 0 fc2 wr2 LoopEnd.stopped hloop
              simp at hsum ⊢
              omega
          | interrupted =>
              rw [mainRun_interrupted env reg fc2 wr2 hse hopen hloop] at hrun
              injection hrun with h
              subst h
              simp at hsum
          | errored =>
              rw [mainRun_errored env reg fc2 wr2 hse hopen hloop] at hrun
              injection hrun with h
              subst h
              simp at hsum
      · rw [mainRun_openFail env reg hse (by simpa using hopen)] at hrun
        injection hrun with h
        subst h
        simp at hsum

theorem frame_count_matches_writes_witness :
    mainRun envStop = some resStop ∧ resStop.summaryFrames = some 1 ∧
    (1 : Nat) = resStop.writes :=
  ⟨rfl, rfl, frame_count_matches_writes.2 envStop resStop 1 rfl rfl⟩

/-- Claim C10: `__exit__` always returns a falsy value (never
suppressing the in-flight exception), releases the writer when it is
set, and only then does the exception reach `main`'s handlers — so an
interrupted or errored session shows both the release and the handler's
effect. -/
theorem exit_never_suppresses :
    (∀ (s : VWState) (exc : Bool),
        (vwc_exit s exc).suppress = false ∧
        (s.writer = true → (vwc_exit s exc).state.releases = s.releases + 1) ∧
        (vwc_exit s exc).printedExc = exc) ∧
    (∀ (env : Env) (r : MainResult) (fc wr : Nat),
        selOk env = true → env.openOk = true →
        runLoop env.events 0 0 = some (fc, wr, LoopEnd.interrupted) →
        mainRun env = some r → r.releases = 1 ∧ r.abortedMsg = true) ∧
    (∀ (env : Env) (r : MainResult) (fc wr : Nat),
        selOk env = true → env.openOk = true →
        runLoop env.events 0 0 = some (fc, wr, LoopEnd.errored) →
        mainRun env = some r → r.releases = 1 ∧ r.exitCode = 1) := by
  refine ⟨?_, ?_, ?_⟩
  · intro s exc
    refine ⟨rfl, ?_, rfl⟩
    intro hw
    simp [vwc_exit, hw]
  · intro env r fc wr hsel hopen hloop hrun
    obtain ⟨reg, hreg⟩ := (selOk_iff env).mp hsel
    rw [mainRun_interrupted env reg fc wr hreg hopen hloop] at hrun
    injection hrun with h
    subst h
    exact ⟨rfl, rfl⟩
  · intro env r fc wr hsel hopen hloop hrun
    obtain ⟨reg, hreg⟩ := (selOk_iff env).mp hsel
    rw [mainRun_errored env reg fc wr hreg hopen hloop] at hrun
    injection hrun with h
    subst h
    exact ⟨rfl, rfl⟩

theorem exit_never_suppresses_witness :
    (vwc_exit ⟨true, 0⟩ true).suppress = false ∧
    (vwc_exit ⟨true, 0⟩ true).state.releases = 1 ∧
    mainRun envError = some resError ∧ resError.releases = 1 ∧ resError.exitCode = 1 :=
  ⟨(exit_never_suppresses.1 ⟨true, 0⟩ true).1,
    (exit_never_suppresses.1 ⟨true, 0⟩ true).2.1 rfl, rfl,
    exit_never_suppresses.2.2 envError resError 1 1 (by decide) rfl (by decide) rfl⟩

end Recorder
